import Mathlib

/-!
Verification of the device-access authorization and intrusion-logging
decision engine of the IoTIntrusionSystemDashboard repository.

The embedding below translates the route module containing
`hasDevicePermission`, `logBlockedAttempt`, `createSecurityAlert`,
`POST /connect/:deviceId` and `POST /disconnect/:deviceId`, and the
alerts route `PUT /:id/resolve`.  The persistence gateway is modelled
as explicit lists of rows inside a `Db` record; the possibility that a
gateway call throws is modelled by boolean fault flags (one per call
site kind), because in the source each call site catches errors in a
fixed way.  Timestamps are modelled as `Nat`; JSON payloads stored in
`request_details` / `metadata` are modelled as association lists of
strings (the engine only ever writes well-formed JSON objects).
-/

namespace IoTDash

/-- A row of the `devices` table, restricted to the columns selected by the
connect query, together with the computed `has_security_enabled` flag. -/
structure Device where
  id : Int
  name : String
  deviceType : String
  macAddress : Option String
  ipAddress : Option String
  location : Option String
  firmwareVersion : Option String
  status : String
  deriving Repr, DecidableEq

/-- The SQL `CASE WHEN firmware_version IS NOT NULL AND firmware_version != ''
THEN true ELSE false END` column computed by the connect query. -/
def Device.hasSecurityEnabled (d : Device) : Bool :=
  match d.firmwareVersion with
  | some fv => fv ≠ ""
  | none => false

/-- A row of the `users` table, restricted to the columns the engine reads. -/
structure UserRow where
  id : Int
  role : String
  deriving Repr, DecidableEq

/-- A row of the `blocked_attempts` table as written by `logBlockedAttempt`.
`blockedReason` and `details` together model the `request_details` JSON
object: it is `\x7buser_id, blocked_reason, ...details\x7d` in the source. -/
structure BlockedAttemptRow where
  sourceIp : String
  targetDeviceId : Int
  attemptType : String
  attemptCount : Nat
  userAgent : Option String
  userId : Int
  blockedReason : String
  details : List (String × String)
  deriving Repr, DecidableEq

/-- A row of the `security_alerts` table. -/
structure SecurityAlertRow where
  id : Int
  deviceId : Option Int
  alertType : String
  severity : String
  description : String
  sourceIp : String
  detectedAt : Nat
  resolvedAt : Option Nat
  status : String
  resolvedBy : Option Int
  metadata : List (String × String)
  deriving Repr, DecidableEq

/-- The relational store as seen by the engine. -/
structure Db where
  users : List UserRow
  devices : List Device
  blockedAttempts : List BlockedAttemptRow
  securityAlerts : List SecurityAlertRow
  deriving Repr, DecidableEq

/-- Fault injection for the four kinds of persistence-gateway calls the
connect handler makes.  A `true` flag means the corresponding call throws. -/
structure Faults where
  deviceQueryFails : Bool
  userQueryFails : Bool
  blockedInsertFails : Bool
  alertInsertFails : Bool
  deriving Repr, DecidableEq

/-- All gateway calls succeed. -/
def noFaults : Faults := ⟨false, false, false, false⟩

/-- Value of a character as a digit in the given radix, JS-style
(digits, then letters case-insensitively), `none` when out of range. -/
def digitValue (radix : Nat) (c : Char) : Option Nat :=
  let v : Option Nat :=
    if '0' ≤ c ∧ c ≤ '9' then some (c.toNat - '0'.toNat)
    else if 'a' ≤ c ∧ c ≤ 'z' then some (c.toNat - 'a'.toNat + 10)
    else if 'A' ≤ c ∧ c ≤ 'Z' then some (c.toNat - 'A'.toNat + 10)
    else none
  match v with
  | some n => if n < radix then some n else none
  | none => none

/-- Accumulate the longest leading run of digits, ignoring the rest,
as JS `parseInt` does. -/
def parseDigitsAux (radix : Nat) : List Char → Nat → Nat
  | [], acc => acc
  | c :: cs, acc =>
    match digitValue radix c with
    | some d => parseDigitsAux radix cs (acc * radix + d)
    | none => acc

/-- JS `parseInt(s)` (radix argument omitted, as in the source): skip
leading whitespace, optional sign, optional `0x`/`0X` switching to base 16,
then the longest run of digits; `none` models `NaN`. -/
def parseIntJs (s : String) : Option Int :=
  let cs := s.data.dropWhile (fun c => c = ' ' ∨ c = '\t' ∨ c = '\n' ∨ c = '\r')
  let signed : Bool × List Char :=
    match cs with
    | '-' :: rest => (true, rest)
    | '+' :: rest => (false, rest)
    | rest => (false, rest)
  let based : Nat × List Char :=
    match signed.2 with
    | '0' :: 'x' :: rest => (16, rest)
    | '0' :: 'X' :: rest => (16, rest)
    | rest => (10, rest)
  match based.2 with
  | [] => none
  | c :: _ =>
    match digitValue based.1 c with
    | none => none
    | some _ =>
      let n := parseDigitsAux based.1 based.2 0
      some (if signed.1 then -(n : Int) else (n : Int))

/-- `hasDevicePermission(userId, deviceId)`: looks up the user's role and
returns `true` exactly when the row exists and `role === 'admin'`; a
storage error is caught and yields `false` (fail closed).  `deviceId` is
unused by the source body, which only consults the user role. -/
def hasDevicePermission (db : Db) (faults : Faults) (userId : Int) : Bool :=
  if faults.userQueryFails then false
  else
    match db.users.find? (fun u => u.id == userId) with
    | some u => u.role == "admin"
    | none => false

/-- `logBlockedAttempt(userId, deviceId, sourceIp, attemptType, userAgent,
details)`: inserts one `blocked_attempts` row with `attempt_count: 1` and
`request_details` containing `user_id` and
`blocked_reason: details.reason || 'unauthorized_access'` merged with the
caller-supplied details; an insert error is caught and logged only. -/
def logBlockedAttempt (db : Db) (faults : Faults) (userId deviceId : Int)
    (sourceIp : String) (attemptType : String) (userAgent : Option String)
    (details : List (String × String)) : Db :=
  if faults.blockedInsertFails then db
  else
    let reason :=
      match details.lookup "reason" with
      | some r => if r = "" then "unauthorized_access" else r
      | none => "unauthorized_access"
    { db with
      blockedAttempts := db.blockedAttempts ++
        [{ sourceIp := sourceIp
           targetDeviceId := deviceId
           attemptType := attemptType
           attemptCount := 1
           userAgent := userAgent
           userId := userId
           blockedReason := reason
           details := details }] }

/-- `createSecurityAlert(deviceId, alertType, severity, description,
sourceIp, metadata)`: inserts one `security_alerts` row with
`status: 'active'` and `detected_at` set to server time; an insert error is
caught and logged only.  The serial id is modelled as list length + 1. -/
def createSecurityAlert (db : Db) (faults : Faults) (deviceId : Option Int)
    (alertType severity description sourceIp : String)
    (metadata : List (String × String)) (now : Nat) : Db :=
  if faults.alertInsertFails then db
  else
    { db with
      securityAlerts := db.securityAlerts ++
        [{ id := Int.ofNat db.securityAlerts.length + 1
           deviceId := deviceId
           alertType := alertType
           severity := severity
           description := description
           sourceIp := sourceIp
           detectedAt := now
           resolvedAt := none
           status := "active"
           resolvedBy := none
           metadata := metadata }] }

/-- The session snapshot stored in `req.session.connectedDevice` on a
successful connect. -/
structure ConnectedDevice where
  id : Int
  name : String
  deviceType : String
  macAddress : Option String
  ipAddress : Option String
  location : Option String
  firmwareVersion : Option String
  status : String
  connectedAt : Nat
  sessionDuration : String
  deriving Repr, DecidableEq

/-- The `connectedDevice` object built from the device row at connect time. -/
def deviceSnapshot (device : Device) (now : Nat) : ConnectedDevice :=
  { id := device.id
    name := device.name
    deviceType := device.deviceType
    macAddress := device.macAddress
    ipAddress := device.ipAddress
    location := device.location
    firmwareVersion := device.firmwareVersion
    status := device.status
    connectedAt := now
    sessionDuration := "0m 0s" }

/-- The JSON response of the connect handler. -/
structure ConnectResponse where
  status : Nat
  success : Bool
  message : String
  device : Option ConnectedDevice
  deriving Repr, DecidableEq

/-- Everything the connect handler produces: the HTTP response, the store
after the audit writes, and the session's `connectedDevice` slot. -/
structure ConnectOutcome where
  response : ConnectResponse
  db : Db
  session : Option ConnectedDevice
  deriving Repr, DecidableEq

/-- `POST /connect/:deviceId`: parse the id, look up the device, branch on
status, permission and security posture, record the audit row for the
branch taken, and on success store the snapshot in the session.  A device
query failure is caught by the handler's outer `catch` and answered with
a generic 500; recorder failures are swallowed inside the recorders. -/
def connect (db : Db) (faults : Faults) (session : Option ConnectedDevice)
    (userId : Int) (deviceIdParam : String) (sourceIp : String)
    (userAgent : Option String) (now : Nat) : ConnectOutcome :=
  match parseIntJs deviceIdParam with
  | none =>
    ⟨⟨400, false, "Invalid device ID", none⟩, db, session⟩
  | some deviceId =>
    if faults.deviceQueryFails then
      ⟨⟨500, false, "An error occurred while connecting to the device", none⟩, db, session⟩
    else
      match db.devices.find? (fun d => d.id == deviceId) with
      | none =>
        let db1 := logBlockedAttempt db faults userId deviceId sourceIp
          "invalid_device" userAgent [("reason", "device_not_found")]
        ⟨⟨404, false, "Device not found", none⟩, db1, session⟩
      | some device =>
        if device.status ≠ "online" then
          let db1 := logBlockedAttempt db faults userId deviceId sourceIp
            "offline_device" userAgent
            [("reason", "device_offline"), ("device_status", device.status)]
          ⟨⟨400, false, "Device is currently offline", none⟩, db1, session⟩
        else
          let permitted := hasDevicePermission db faults userId
          let connectedDevice := deviceSnapshot device now
          let success := fun (dbx : Db) =>
            ConnectOutcome.mk
              ⟨200, true, "Successfully connected to " ++ device.name, some connectedDevice⟩
              dbx (some connectedDevice)
          if permitted then success db
          else if device.hasSecurityEnabled then
            let db1 := logBlockedAttempt db faults userId deviceId sourceIp
              "unauthorized_access" userAgent
              [("reason", "no_permission_secured_device"),
               ("device_name", device.name), ("security_enabled", "true")]
            ⟨⟨403, false,
              "Access denied. This device requires explicit permission and has security enabled.",
              none⟩, db1, session⟩
          else
            let db1 := createSecurityAlert db faults (some deviceId)
              "Unauthorized Device Access" "medium"
              ("User accessed unsecured device without explicit permission: " ++ device.name)
              sourceIp
              [("user_id", toString userId), ("device_name", device.name),
               ("access_granted", "true"), ("security_enabled", "false"),
               ("reason", "unsecured_device_access")] now
            success db1

/-- The JSON response of the disconnect and resolve handlers. -/
structure SimpleResponse where
  status : Nat
  success : Bool
  message : String
  deriving Repr, DecidableEq

/-- `POST /disconnect/:deviceId`: parse the id; if the session holds no
connection or one for a different device answer 400, otherwise delete the
session connection and confirm.  The store is passed through untouched:
the handler performs no persistence call. -/
def disconnect (db : Db) (session : Option ConnectedDevice)
    (deviceIdParam : String) : SimpleResponse × Db × Option ConnectedDevice :=
  match parseIntJs deviceIdParam with
  | none => (⟨400, false, "Invalid device ID"⟩, db, session)
  | some deviceId =>
    match session with
    | none => (⟨400, false, "You are not connected to this device"⟩, db, none)
    | some cd =>
      if cd.id ≠ deviceId then
        (⟨400, false, "You are not connected to this device"⟩, db, some cd)
      else
        (⟨200, true, "Successfully disconnected from " ++ cd.name⟩, db, none)

/-- JS truthiness of the optional `resolved_by` body field (a number:
`0` is falsy). -/
def truthyInt (v : Option Int) : Bool :=
  match v with
  | some n => n ≠ 0
  | none => false

/-- JS truthiness of the optional `resolution_note` body field (a string:
`""` is falsy). -/
def truthyStr (v : Option String) : Bool :=
  match v with
  | some s => s ≠ ""
  | none => false

/-- Set key `k` to value `v` in an association-list JSON object. -/
def setKey (m : List (String × String)) (k v : String) : List (String × String) :=
  if (m.lookup k).isSome then
    m.map (fun p => if p.1 = k then (k, v) else p)
  else m ++ [(k, v)]

/-- `PUT /:id/resolve` of the alerts router: parse the id, require an
existing alert in status `active`, validate `resolved_by` when truthy, then
issue one update setting `status: 'resolved'` and `resolved_at` (plus
`resolved_by` and a metadata `resolution_note` when provided). -/
def resolveAlert (db : Db) (alertIdParam : String) (resolvedBy : Option Int)
    (resolutionNote : Option String) (now : Nat) : SimpleResponse × Db :=
  match parseIntJs alertIdParam with
  | none => (⟨400, false, "Invalid alert ID"⟩, db)
  | some alertId =>
    match db.securityAlerts.find? (fun a => a.id == alertId) with
    | none => (⟨404, false, "Alert not found"⟩, db)
    | some alert =>
      if alert.status ≠ "active" then
        (⟨400, false, "Alert is already resolved or not active"⟩, db)
      else if truthyInt resolvedBy ∧ (db.users.find? (fun u => some u.id == resolvedBy)).isNone then
        (⟨400, false, "User not found"⟩, db)
      else
        let newMeta :=
          if truthyStr resolutionNote then
            setKey alert.metadata "resolution_note" (resolutionNote.getD "")
          else alert.metadata
        let updated := db.securityAlerts.map (fun a =>
          if a.id == alertId then
            { a with
              status := "resolved"
              resolvedAt := some now
              resolvedBy := if truthyInt resolvedBy then resolvedBy else a.resolvedBy
              metadata := newMeta }
          else a)
        if (db.securityAlerts.filter (fun a => a.id == alertId)).length = 0 then
          (⟨404, false, "Alert not found"⟩, db)
        else
          (⟨200, true, "Alert resolved successfully"⟩, { db with securityAlerts := updated })


/-! Concrete stores used by witnesses. -/

/-- An online device with non-empty firmware (security enabled). -/
def devLock : Device := ⟨2, "lock", "lock", none, none, none, some "1.0", "online"⟩

/-- An online device with empty firmware (security not enabled). -/
def devBulb : Device := ⟨3, "bulb", "light", none, none, none, some "", "online"⟩

/-- An offline device. -/
def devCam : Device := ⟨1, "cam", "camera", none, none, none, some "1.0", "offline"⟩

/-- A concrete store: one regular user, one admin, three devices. -/
def dbW : Db :=
  { users := [⟨1, "user"⟩, ⟨2, "admin"⟩]
    devices := [devCam, devLock, devBulb]
    blockedAttempts := []
    securityAlerts := [] }

/-! Helper lemmas shared by the claim theorems. -/

/-- A user that is absent or whose role is not `admin` gets no permission
(with the user lookup succeeding). -/
lemma hasDevicePermission_eq_false_of_nonadmin (db : Db) (faults : Faults)
    (userId : Int) (hq : faults.userQueryFails = false)
    (h : ∀ u ∈ db.users, u.id = userId → u.role ≠ "admin") :
    hasDevicePermission db faults userId = false := by
  unfold hasDevicePermission
  rw [hq]
  cases hfind : db.users.find? (fun u => u.id == userId) with
  | none => rfl
  | some u =>
    have hmem : u ∈ db.users := List.mem_of_find?_eq_some hfind
    have hid := List.find?_some hfind
    have hne : u.role ≠ "admin" := h u hmem (by simpa using hid)
    simp [hne]

/-- Empty or absent firmware means the security-posture flag is off. -/
lemma hasSecurityEnabled_eq_false_of_empty (device : Device)
    (h : device.firmwareVersion = none ∨ device.firmwareVersion = some "") :
    device.hasSecurityEnabled = false := by
  unfold Device.hasSecurityEnabled
  rcases h with h | h <;> simp [h]

/-! Claim theorems. -/

/-- C1: for every connect request by a non-admin user for an online device
with security enabled (present, non-empty firmware), the handler answers
403, appends exactly one blocked_attempts row with attempt_type
`unauthorized_access`, and leaves the session connection slot untouched. -/
theorem C1_connect_nonadmin_secured_forbidden
    (db : Db) (session : Option ConnectedDevice) (userId : Int)
    (p sourceIp : String) (ua : Option String) (now : Nat)
    (deviceId : Int) (device : Device)
    (hp : parseIntJs p = some deviceId)
    (hd : db.devices.find? (fun d => d.id == deviceId) = some device)
    (hon : device.status = "online")
    (hsec : device.hasSecurityEnabled = true)
    (hrole : ∀ u ∈ db.users, u.id = userId → u.role ≠ "admin") :
    (connect db noFaults session userId p sourceIp ua now).response.status = 403 ∧
    (connect db noFaults session userId p sourceIp ua now).db.blockedAttempts =
      db.blockedAttempts ++
        [{ sourceIp := sourceIp, targetDeviceId := deviceId,
           attemptType := "unauthorized_access", attemptCount := 1,
           userAgent := ua, userId := userId,
           blockedReason := "no_permission_secured_device",
           details := [("reason", "no_permission_secured_device"),
                       ("device_name", device.name),
                       ("security_enabled", "true")] }] ∧
    (connect db noFaults session userId p sourceIp ua now).session = session := by
  have hperm : hasDevicePermission db noFaults userId = false :=
    hasDevicePermission_eq_false_of_nonadmin db noFaults userId rfl hrole
  unfold connect
  rw [hp]
  simp only [noFaults] at hperm
  simp [noFaults, hd, hon, hsec, hperm, logBlockedAttempt]

/-- C1 witness: the theorem's hypotheses hold for user 1 and device 2 of
`dbW`, and the conclusion follows by applying the theorem there. -/
theorem C1_witness :
    (parseIntJs "2" = some 2 ∧
     dbW.devices.find? (fun d => d.id == 2) = some devLock ∧
     devLock.status = "online" ∧
     devLock.hasSecurityEnabled = true ∧
     (∀ u ∈ dbW.users, u.id = 1 → u.role ≠ "admin")) ∧
    (connect dbW noFaults none 1 "2" "10.0.0.1" none 5).response.status = 403 :=
  ⟨⟨by decide, by decide, by decide, by decide, by decide⟩,
   (C1_connect_nonadmin_secured_forbidden dbW none 1 "2" "10.0.0.1" none 5 2 devLock
      (by decide) (by decide) (by decide) (by decide) (by decide)).1⟩

/-- C2: for every connect request by a non-admin user for an online device
with null or empty firmware, the handler answers 200 with the device
snapshot, appends exactly one security_alerts row with severity `medium`
and status `active`, and stores the snapshot as the session connection. -/
theorem C2_connect_nonadmin_unsecured_allowed_with_alert
    (db : Db) (session : Option ConnectedDevice) (userId : Int)
    (p sourceIp : String) (ua : Option String) (now : Nat)
    (deviceId : Int) (device : Device)
    (hp : parseIntJs p = some deviceId)
    (hd : db.devices.find? (fun d => d.id == deviceId) = some device)
    (hon : device.status = "online")
    (hfw : device.firmwareVersion = none ∨ device.firmwareVersion = some "")
    (hrole : ∀ u ∈ db.users, u.id = userId → u.role ≠ "admin") :
    (connect db noFaults session userId p sourceIp ua now).response.status = 200 ∧
    (connect db noFaults session userId p sourceIp ua now).response.device =
      some (deviceSnapshot device now) ∧
    (connect db noFaults session userId p sourceIp ua now).db.securityAlerts =
      db.securityAlerts ++
        [{ id := Int.ofNat db.securityAlerts.length + 1,
           deviceId := some deviceId,
           alertType := "Unauthorized Device Access",
           severity := "medium",
           description :=
             "User accessed unsecured device without explicit permission: " ++ device.name,
           sourceIp := sourceIp,
           detectedAt := now,
           resolvedAt := none,
           status := "active",
           resolvedBy := none,
           metadata := [("user_id", toString userId), ("device_name", device.name),
                        ("access_granted", "true"), ("security_enabled", "false"),
                        ("reason", "unsecured_device_access")] }] ∧
    (connect db noFaults session userId p sourceIp ua now).session =
      some (deviceSnapshot device now) := by
  have hperm : hasDevicePermission db noFaults userId = false :=
    hasDevicePermission_eq_false_of_nonadmin db noFaults userId rfl hrole
  have hsec : device.hasSecurityEnabled = false :=
    hasSecurityEnabled_eq_false_of_empty device hfw
  unfold connect
  rw [hp]
  simp only [noFaults] at hperm
  simp [noFaults, hd, hon, hsec, hperm, createSecurityAlert]

/-- C2 witness: the theorem's hypotheses hold for user 1 and device 3 of
`dbW` (firmware `""`), and the conclusion follows by applying the theorem. -/
theorem C2_witness :
    (parseIntJs "3" = some 3 ∧
     dbW.devices.find? (fun d => d.id == 3) = some devBulb ∧
     devBulb.status = "online" ∧
     (devBulb.firmwareVersion = none ∨ devBulb.firmwareVersion = some "") ∧
     (∀ u ∈ dbW.users, u.id = 1 → u.role ≠ "admin")) ∧
    (connect dbW noFaults none 1 "3" "10.0.0.1" none 5).response.status = 200 :=
  ⟨⟨by decide, by decide, by decide, by decide, by decide⟩,
   (C2_connect_nonadmin_unsecured_allowed_with_alert dbW none 1 "3" "10.0.0.1" none 5 3 devBulb
      (by decide) (by decide) (by decide) (by decide) (by decide)).1⟩

/-- C3: for every connect request by a user whose row has role `admin`, for
any existing online device, the handler answers 200 and appends no
blocked_attempts row and no security_alerts row. -/
theorem C3_connect_admin_allowed_no_audit
    (db : Db) (session : Option ConnectedDevice) (userId : Int)
    (p sourceIp : String) (ua : Option String) (now : Nat)
    (deviceId : Int) (device : Device) (u : UserRow)
    (hp : parseIntJs p = some deviceId)
    (hd : db.devices.find? (fun d => d.id == deviceId) = some device)
    (hon : device.status = "online")
    (hu : db.users.find? (fun w => w.id == userId) = some u)
    (hrole : u.role = "admin") :
    (connect db noFaults session userId p sourceIp ua now).response.status = 200 ∧
    (connect db noFaults session userId p sourceIp ua now).db.blockedAttempts =
      db.blockedAttempts ∧
    (connect db noFaults session userId p sourceIp ua now).db.securityAlerts =
      db.securityAlerts := by
  have hperm : hasDevicePermission db noFaults userId = true := by
    unfold hasDevicePermission
    simp [noFaults, hu, hrole]
  unfold connect
  rw [hp]
  simp only [noFaults] at hperm
  simp [noFaults, hd, hon, hperm]

/-- C3 witness: the theorem's hypotheses hold for the admin user 2 and
device 2 of `dbW`, and the conclusion follows by applying the theorem. -/
theorem C3_witness :
    (parseIntJs "2" = some 2 ∧
     dbW.devices.find? (fun d => d.id == 2) = some devLock ∧
     devLock.status = "online" ∧
     dbW.users.find? (fun w => w.id == 2) = some ⟨2, "admin"⟩ ∧
     (⟨2, "admin"⟩ : UserRow).role = "admin") ∧
    (connect dbW noFaults none 2 "2" "10.0.0.1" none 5).response.status = 200 :=
  ⟨⟨by decide, by decide, by decide, by decide, by decide⟩,
   (C3_connect_admin_allowed_no_audit dbW none 2 "2" "10.0.0.1" none 5 2 devLock ⟨2, "admin"⟩
      (by decide) (by decide) (by decide) (by decide) (by decide)).1⟩

/-- C4: for every connect request whose deviceId parses to an integer
matching no device row, the handler answers 404 and appends exactly one
blocked_attempts row with attempt_type `invalid_device` and
target_device_id equal to the requested id. -/
theorem C4_connect_missing_device_not_found
    (db : Db) (session : Option ConnectedDevice) (userId : Int)
    (p sourceIp : String) (ua : Option String) (now : Nat) (deviceId : Int)
    (hp : parseIntJs p = some deviceId)
    (hd : db.devices.find? (fun d => d.id == deviceId) = none) :
    (connect db noFaults session userId p sourceIp ua now).response.status = 404 ∧
    (connect db noFaults session userId p sourceIp ua now).db.blockedAttempts =
      db.blockedAttempts ++
        [{ sourceIp := sourceIp, targetDeviceId := deviceId,
           attemptType := "invalid_device", attemptCount := 1,
           userAgent := ua, userId := userId,
           blockedReason := "device_not_found",
           details := [("reason", "device_not_found")] }] := by
  unfold connect
  rw [hp]
  simp [noFaults, hd, logBlockedAttempt]

/-- C4 witness: the theorem's hypotheses hold for the absent device id 999
of `dbW`, and the conclusion follows by applying the theorem. -/
theorem C4_witness :
    (parseIntJs "999" = some 999 ∧
     dbW.devices.find? (fun d => d.id == 999) = none) ∧
    (connect dbW noFaults none 1 "999" "10.0.0.1" none 5).response.status = 404 :=
  ⟨⟨by decide, by decide⟩,
   (C4_connect_missing_device_not_found dbW none 1 "999" "10.0.0.1" none 5 999
      (by decide) (by decide)).1⟩

/-- C5: for every device whose status is not `online`, any connect attempt
for it answers 400 with message "Device is currently offline" and appends
exactly one blocked_attempts row with attempt_type `offline_device`. -/
theorem C5_connect_offline_device_blocked
    (db : Db) (session : Option ConnectedDevice) (userId : Int)
    (p sourceIp : String) (ua : Option String) (now : Nat)
    (deviceId : Int) (device : Device)
    (hp : parseIntJs p = some deviceId)
    (hd : db.devices.find? (fun d => d.id == deviceId) = some device)
    (hoff : device.status ≠ "online") :
    (connect db noFaults session userId p sourceIp ua now).response.status = 400 ∧
    (connect db noFaults session userId p sourceIp ua now).response.message =
      "Device is currently offline" ∧
    (connect db noFaults session userId p sourceIp ua now).db.blockedAttempts =
      db.blockedAttempts ++
        [{ sourceIp := sourceIp, targetDeviceId := deviceId,
           attemptType := "offline_device", attemptCount := 1,
           userAgent := ua, userId := userId,
           blockedReason := "device_offline",
           details := [("reason", "device_offline"),
                       ("device_status", device.status)] }] := by
  unfold connect
  rw [hp]
  simp [noFaults, hd, hoff, logBlockedAttempt]

/-- C5 witness: the theorem's hypotheses hold for the offline device 1 of
`dbW`, and the conclusion follows by applying the theorem. -/
theorem C5_witness :
    (parseIntJs "1" = some 1 ∧
     dbW.devices.find? (fun d => d.id == 1) = some devCam ∧
     devCam.status ≠ "online") ∧
    (connect dbW noFaults none 1 "1" "10.0.0.1" none 5).response.status = 400 :=
  ⟨⟨by decide, by decide, by decide⟩,
   (C5_connect_offline_device_blocked dbW none 1 "1" "10.0.0.1" none 5 1 devCam
      (by decide) (by decide) (by decide)).1⟩

/-- C6 counterexample: the parameter "-5" does not parse to a positive
integer (it parses to the negative integer -5), yet the handler does not
answer 400 "Invalid device ID" with no audit write: against `dbW` it
answers 404 and appends a blocked_attempts audit row. -/
theorem C6_counterexample :
    parseIntJs "-5" = some (-5) ∧ ¬(0 < (-5 : Int)) ∧
    (connect dbW noFaults none 1 "-5" "10.0.0.1" none 5).response.status = 404 ∧
    (connect dbW noFaults none 1 "-5" "10.0.0.1" none 5).response.message ≠
      "Invalid device ID" ∧
    (connect dbW noFaults none 1 "-5" "10.0.0.1" none 5).db.blockedAttempts ≠
      dbW.blockedAttempts := by
  refine ⟨by decide, by decide, rfl, by decide, by decide⟩

/-- C6 (amended): for every connect request whose deviceId parameter does
not parse to an integer at all (JS parseInt yields NaN), the handler
answers 400 "Invalid device ID" and writes no audit record: the store and
the session are returned unchanged.  A parameter that parses to a
non-positive integer is not rejected by this check; it proceeds to the
device lookup. -/
theorem C6_amended_invalid_device_id
    (db : Db) (faults : Faults) (session : Option ConnectedDevice)
    (userId : Int) (p sourceIp : String) (ua : Option String) (now : Nat)
    (hp : parseIntJs p = none) :
    (connect db faults session userId p sourceIp ua now).response.status = 400 ∧
    (connect db faults session userId p sourceIp ua now).response.message =
      "Invalid device ID" ∧
    (connect db faults session userId p sourceIp ua now).db = db ∧
    (connect db faults session userId p sourceIp ua now).session = session := by
  unfold connect
  rw [hp]
  exact ⟨rfl, rfl, rfl, rfl⟩

/-- C6 witness: the amended theorem's hypothesis holds for the parameter
"abc", and the conclusion follows by applying the theorem there. -/
theorem C6_witness :
    parseIntJs "abc" = none ∧
    (connect dbW noFaults none 1 "abc" "10.0.0.1" none 5).response.status = 400 :=
  ⟨by decide,
   (C6_amended_invalid_device_id dbW noFaults none 1 "abc" "10.0.0.1" none 5 (by decide)).1⟩

/-- C7: recorder write failures are invisible in the handler's outcome:
with the same query faults, any combination of insert faults yields the
same HTTP response and the same session slot as fully successful inserts.
(That the recorders complete normally instead of re-throwing is what the
total functions `logBlockedAttempt` / `createSecurityAlert` embed: on a
failed insert they return, leaving the store unchanged.) -/
theorem C7_recorder_failures_do_not_change_response
    (db : Db) (session : Option ConnectedDevice) (userId : Int)
    (p sourceIp : String) (ua : Option String) (now : Nat)
    (dq uq bf af : Bool) :
    (connect db ⟨dq, uq, bf, af⟩ session userId p sourceIp ua now).response =
      (connect db ⟨dq, uq, false, false⟩ session userId p sourceIp ua now).response ∧
    (connect db ⟨dq, uq, bf, af⟩ session userId p sourceIp ua now).session =
      (connect db ⟨dq, uq, false, false⟩ session userId p sourceIp ua now).session := by
  unfold connect
  cases hp : parseIntJs p with
  | none => exact ⟨rfl, rfl⟩
  | some deviceId =>
    cases hd : db.devices.find? (fun d => d.id == deviceId) with
    | none => cases dq <;> simp [hd]
    | some device =>
      have hpm : hasDevicePermission db ⟨false, uq, bf, af⟩ userId =
          hasDevicePermission db ⟨false, uq, false, false⟩ userId := rfl
      cases dq with
      | true => simp
      | false =>
        by_cases hon : device.status = "online"
        · cases hperm : hasDevicePermission db ⟨false, uq, false, false⟩ userId with
          | true => simp [hd, hon, hpm, hperm]
          | false =>
            cases hsec : device.hasSecurityEnabled with
            | true => simp [hd, hon, hpm, hperm, hsec]
            | false => simp [hd, hon, hpm, hperm, hsec]
        · simp [hd, hon]

/-- C8: disconnect with a parsed device id never throws and behaves by
cases: with no session connection, or one for a different device, it
answers 400 "You are not connected to this device" and changes nothing;
with a matching connection it answers 200, clears the session connection,
and leaves the persistent store untouched in every case. -/
theorem C8_disconnect_requires_matching_connection
    (db : Db) (session : Option ConnectedDevice) (p : String) (deviceId : Int)
    (hp : parseIntJs p = some deviceId) :
    (session = none →
      disconnect db session p =
        (⟨400, false, "You are not connected to this device"⟩, db, none)) ∧
    (∀ cd, session = some cd → cd.id ≠ deviceId →
      disconnect db session p =
        (⟨400, false, "You are not connected to this device"⟩, db, some cd)) ∧
    (∀ cd, session = some cd → cd.id = deviceId →
      disconnect db session p =
        (⟨200, true, "Successfully disconnected from " ++ cd.name⟩, db, none)) := by
  unfold disconnect
  rw [hp]
  refine ⟨?_, ?_, ?_⟩
  · rintro rfl
    rfl
  · rintro cd rfl hne
    simp [hne]
  · rintro cd rfl heq
    simp [heq]

/-- C8 witness: the theorem's hypothesis holds for the parameter "3", and
a session connected to device 3 is cleared with a 200 confirmation. -/
theorem C8_witness :
    parseIntJs "3" = some 3 ∧
    disconnect dbW (some (deviceSnapshot devBulb 5)) "3" =
      (⟨200, true, "Successfully disconnected from " ++ (deviceSnapshot devBulb 5).name⟩,
       dbW, none) :=
  ⟨by decide,
   (C8_disconnect_requires_matching_connection dbW (some (deviceSnapshot devBulb 5)) "3" 3
      (by decide)).2.2 (deviceSnapshot devBulb 5) rfl (by decide)⟩

/-- A store with a single active security alert, for the resolve witness. -/
def alertA : SecurityAlertRow :=
  ⟨1, some 3, "Unauthorized Device Access", "medium", "d", "10.0.0.1", 0, none, "active", none, []⟩

/-- A store holding `alertA` and one user. -/
def dbA : Db :=
  { users := [⟨1, "user"⟩]
    devices := []
    blockedAttempts := []
    securityAlerts := [alertA] }

/-- C9: resolving an existing alert behaves by cases: if its status is not
`active` the route answers 400 and the store is unchanged; and whenever
the route answers 200, every stored row with the requested id has been
set to status `resolved` with the non-null resolved_at timestamp of that
same single update. -/
theorem C9_resolve_sets_resolved_and_rejects_nonactive
    (db : Db) (p : String) (alertId : Int) (rb : Option Int)
    (note : Option String) (now : Nat) (alert : SecurityAlertRow)
    (hp : parseIntJs p = some alertId)
    (hfind : db.securityAlerts.find? (fun a => a.id == alertId) = some alert) :
    (alert.status ≠ "active" →
      (resolveAlert db p rb note now).1.status = 400 ∧
      (resolveAlert db p rb note now).2 = db) ∧
    ((resolveAlert db p rb note now).1.status = 200 →
      ∀ a ∈ (resolveAlert db p rb note now).2.securityAlerts, a.id = alertId →
        a.status = "resolved" ∧ a.resolvedAt = some now) := by
  unfold resolveAlert
  rw [hp]
  simp only [hfind]
  by_cases hact : alert.status ≠ "active"
  · rw [if_pos hact]
    exact ⟨fun _ => ⟨rfl, rfl⟩, fun h200 => by simp at h200⟩
  · rw [if_neg hact]
    refine ⟨fun hne => absurd hne hact, ?_⟩
    by_cases huser : truthyInt rb = true ∧ (db.users.find? (fun u => some u.id == rb)).isNone = true
    · rw [if_pos huser]
      exact fun h200 => by simp at h200
    · rw [if_neg huser]
      by_cases hlen : (db.securityAlerts.filter (fun a => a.id == alertId)).length = 0
      · simp only [if_pos hlen]
        exact fun h200 => by simp at h200
      · simp only [if_neg hlen]
        intro _ a ha haid
        rcases List.mem_map.mp ha with ⟨b, hb, hba⟩
        by_cases hbid : (b.id == alertId) = true
        · rw [if_pos hbid] at hba
          rw [← hba]
          exact ⟨rfl, rfl⟩
        · rw [if_neg hbid] at hba
          rw [← hba] at haid
          exact absurd haid (by simpa using hbid)

/-- C9 witness: the theorem's hypotheses hold for the active alert 1 of
`dbA`, and the 200 branch of the conclusion follows by applying
the theorem there. -/
theorem C9_witness :
    (parseIntJs "1" = some 1 ∧
     dbA.securityAlerts.find? (fun a => a.id == 1) = some alertA) ∧
    ((resolveAlert dbA "1" (some 1) (some "ok") 42).1.status = 200 →
      ∀ a ∈ (resolveAlert dbA "1" (some 1) (some "ok") 42).2.securityAlerts, a.id = 1 →
        a.status = "resolved" ∧ a.resolvedAt = some 42) :=
  ⟨⟨by decide, by decide⟩,
   (C9_resolve_sets_resolved_and_rejects_nonactive dbA "1" 1 (some 1) (some "ok") 42 alertA
      (by decide) (by decide)).2⟩

/-- C10: whenever the connect handler's answer is not the 200 success
(invalid id, missing device, offline device, forbidden, or a device-query
failure answered 500), the session's connectedDevice slot is exactly what
it was before the request, whatever connection it held. -/
theorem C10_connect_non_success_preserves_session
    (db : Db) (faults : Faults) (session : Option ConnectedDevice)
    (userId : Int) (p sourceIp : String) (ua : Option String) (now : Nat)
    (h : (connect db faults session userId p sourceIp ua now).response.status ≠ 200) :
    (connect db faults session userId p sourceIp ua now).session = session := by
  revert h
  unfold connect
  cases hp : parseIntJs p with
  | none => intro h; rfl
  | some deviceId =>
    cases hdq : faults.deviceQueryFails with
    | true => intro h; simp [hdq]
    | false =>
      cases hd : db.devices.find? (fun d => d.id == deviceId) with
      | none => intro h; simp [hdq, hd]
      | some device =>
        by_cases hon : device.status = "online"
        · cases hperm : hasDevicePermission db faults userId with
          | true =>
            intro h
            exact absurd (by simp [hdq, hd, hon, hperm]) h
          | false =>
            cases hsec : device.hasSecurityEnabled with
            | true => intro h; simp [hdq, hd, hon, hperm, hsec]
            | false =>
              intro h
              exact absurd (by simp [hdq, hd, hon, hperm, hsec]) h
        · intro h; simp [hdq, hd, hon]

/-- C10 witness: connecting to the offline device 1 of `dbW` while the
session is connected to device 3 answers a non-200 status and leaves the
stored connection to device 3 in place. -/
theorem C10_witness :
    (connect dbW noFaults (some (deviceSnapshot devBulb 5)) 1 "1" "10.0.0.1" none 7).response.status ≠ 200 ∧
    (connect dbW noFaults (some (deviceSnapshot devBulb 5)) 1 "1" "10.0.0.1" none 7).session =
      some (deviceSnapshot devBulb 5) :=
  ⟨by decide,
   C10_connect_non_success_preserves_session dbW noFaults (some (deviceSnapshot devBulb 5))
     1 "1" "10.0.0.1" none 7 (by decide)⟩

end IoTDash
